import Mathlib

/-!
Verification of the shapefile layer server (`multiple_layers.py`).

The development shallowly embeds the parts of the program that the
specification talks about: the insertion-ordered dictionaries used for the
field-mapping registry, the per-feature property rewrite loop of
`get_geodata`, shapefile discovery (`discover_shapefiles`, including the
CPython `os.path.splitext` leading-dot rule), and the request handler
`get_geodata` itself as a pure function from an environment (the external
geopandas/json collaborators), the current cache and the requested layer
name to an HTTP response, the updated cache, and the observable filesystem
reads and writes.  An interleaving model of two unsynchronized requests
captures the concurrency behaviour of the shared cache dictionary.
-/

/-- Insertion-ordered dictionary lookup, modelling Python `d.get(k)` /
`k in d` on a `dict` represented as an association list. -/
def dictGet {α : Type} : List (String × α) → String → Option α
  | [], _ => none
  | (k, v) :: rest, key => if k = key then some v else dictGet rest key

/-- Insertion-ordered dictionary update, modelling Python `d[k] = v`:
an existing key keeps its position and gets the new value, a fresh key is
appended at the end. -/
def dictInsert {α : Type} : List (String × α) → String → α → List (String × α)
  | [], k, v => [(k, v)]
  | (k2, v2) :: rest, k, v =>
      if k2 = k then (k2, v) :: rest else (k2, v2) :: dictInsert rest k v

/-- The static field-mapping registry `FIELD_MAPPING` from the source. -/
def FIELD_MAPPING : List (String × List (String × String)) :=
  [ ("Ohio_County_Boundaries",
      [("name", "County Name"), ("county_sea", "County Seat")]),
    ("Ohio_Senate_Districts_2024_to_2032",
      [("district", "Senate District #")]),
    ("Ohio_House_Districts_2024_to__2032",
      [("district", "House District #")]),
    ("Ohio_Municipal_Boundaries",
      [("municipali", "Municipality Name"), ("sq_mi", "Area (square miles)")]),
    ("Ohio_Township_Boundaries",
      [("twp_name", "Township Name"), ("sqmi_area", "Area (square miles)")]) ]

/-- A single GeoJSON feature as produced by `json.loads(gdf.to_json())`:
a `type` tag, an opaque geometry object of type `γ`, and a properties
record with values of type `π`. -/
structure Feature (γ π : Type) where
  type : String
  geometry : γ
  properties : List (String × π)
  deriving DecidableEq

/-- A GeoJSON feature collection (`geodata_json` in the source). -/
structure FeatureCollection (γ π : Type) where
  type : String
  features : List (Feature γ π)
  deriving DecidableEq

/-- The inner rename loop of `get_geodata` (lines 177-181): fold the policy
pairs over the accumulating `new_properties` dictionary, skipping the
reserved `__title__` entry and silently omitting original keys that are
absent from the feature. -/
def applyPolicy {π : Type} (original_properties : List (String × π)) :
    List (String × String) → List (String × π) → List (String × π)
  | [], new_properties => new_properties
  | (original_key, new_key) :: rest, new_properties =>
      if original_key = "__title__" then
        applyPolicy original_properties rest new_properties
      else
        match dictGet original_properties original_key with
        | some v => applyPolicy original_properties rest
            (dictInsert new_properties new_key v)
        | none => applyPolicy original_properties rest new_properties

/-- The per-feature body of the mapping loop of `get_geodata`
(lines 168-183): start from an empty properties dictionary, set the
synthetic `Title` entry first when the policy designates a title field that
the feature carries, then run the rename loop.  The guard on line 173 is
Python truthiness (`if title_field and title_field in original_properties`),
so a missing designator and an empty-string designator both inject
nothing. -/
def map_feature {γ π : Type} (mapping : List (String × String))
    (feature : Feature γ π) : Feature γ π :=
  let original_properties := feature.properties
  let title_field := dictGet mapping "__title__"
  let new_properties :=
    match title_field with
    | some tf =>
        if tf = "" then []
        else
          match dictGet original_properties tf with
          | some v => dictInsert [] "Title" v
          | none => []
    | none => []
  { feature with properties := applyPolicy original_properties mapping new_properties }

/-- The mapping/filtering step of `get_geodata` (lines 164-185): when a
policy exists every feature is rewritten, otherwise the collection passes
through unmodified. -/
def applyFieldMapping {γ π : Type} (mapping : Option (List (String × String)))
    (geodata_json : FeatureCollection γ π) : FeatureCollection γ π :=
  match mapping with
  | some m => { geodata_json with features := geodata_json.features.map (map_feature m) }
  | none => geodata_json

/-- Closed form used in theorem statements: the list of renamed properties
a policy produces from an original property record, in policy order. -/
def renameImage {π : Type} (original_properties : List (String × π))
    (mapping : List (String × String)) : List (String × π) :=
  mapping.filterMap (fun p =>
    if p.1 = "__title__" then none
    else (dictGet original_properties p.1).map (fun v => (p.2, v)))

/-- The display names a policy can actually write (the title designator
entry excluded); closed form used in theorem statements. -/
def policyTargets (policy : List (String × String)) : List String :=
  policy.filterMap (fun p => if p.1 = "__title__" then none else some p.2)

/-- Lexicographic comparison of character lists by code point, modelling
Python string comparison as used by `sorted`. -/
def lexLe : List Char → List Char → Bool
  | [], _ => true
  | _ :: _, [] => false
  | a :: as, b :: bs =>
      if a.toNat < b.toNat then true
      else if b.toNat < a.toNat then false
      else lexLe as bs

/-- String order used by the discovery sort. -/
def strLe (a b : String) : Prop := lexLe a.data b.data = true

instance : DecidableRel strLe := fun a b => by
  unfold strLe
  infer_instance

/-- Suffix test modelling Python `filename.endswith(".shp")`. -/
def endsWithShp (filename : String) : Bool :=
  filename.data.drop (filename.data.length - 4) == ".shp".data

/-- Index of the last dot of a character list, if any; helper for the
`os.path.splitext` model. -/
def lastDotIdxAux : List Char → Nat → Option Nat
  | [], _ => none
  | c :: cs, i =>
      match lastDotIdxAux cs (i + 1) with
      | some j => some j
      | none => if c == '.' then some i else none

/-- Root component of CPython `os.path.splitext` for a plain directory
entry (no path separators): split at the last dot, except that a dot with
only dots before it is part of the root (leading dots of a hidden file do
not start an extension). -/
def splitextRoot (p : String) : String :=
  match lastDotIdxAux p.data 0 with
  | none => p
  | some i =>
      if (p.data.take i).all (fun c => c == '.') then p
      else ⟨p.data.take i⟩

/-- The `discover_shapefiles` function: `none` models a nonexistent data
directory, `some filenames` the result of `os.listdir`.  Entries ending in
`.shp` are kept, `os.path.splitext` strips the extension, and the result is
sorted. -/
def discover_shapefiles (listing : Option (List String)) : List String :=
  match listing with
  | none => []
  | some filenames =>
      let shapefiles := (filenames.filter (fun f => endsWithShp f)).map splitextRoot
      List.insertionSort strLe shapefiles

/-- The data directory configured in the source (`SHAPEFILE_FOLDER`). -/
def SHAPEFILE_FOLDER : String := "data"

/-- An HTTP response as assembled by the handler: body, status code and
mime type. -/
structure HttpResponse where
  body : String
  status : Nat
  mimetype : String

/-- The external collaborators of `get_geodata`: the discovered layer list
`AVAILABLE_LAYERS`, the combined `gpd.read_file` / `to_crs` /
`to_json` / `json.loads` step (`none` models any exception it raises), and
`json.dumps`. -/
structure Env (γ π : Type) where
  AVAILABLE_LAYERS : List String
  read_file : String → Option (FeatureCollection γ π)
  dumps : FeatureCollection γ π → String

/-- Everything observable about one `get_geodata` request: the HTTP
response, the cache afterwards, the filesystem paths read and written, the
warnings printed, and how many times the load/reproject/map pipeline ran. -/
structure ReqResult where
  response : HttpResponse
  cache : List (String × String)
  fsReads : List String
  fsWrites : List String
  warnings : List String
  loads : Nat

/-- Body of the 404 response of `get_geodata`. -/
def layerNotFoundBody : String := "\x7b\"error\": \"Layer not found\"\x7d"

/-- Body of the 500 response of `get_geodata` for a failed load. -/
def couldNotLoadBody (layer_name : String) : String :=
  "\x7b\"error\": \"Could not load data for layer: " ++ layer_name ++ "\"\x7d"

/-- The warning printed when a discovered layer has no field mapping. -/
def noMappingWarning (layer_name : String) : String :=
  "Warning: No field mapping found for " ++ layer_name ++ ". Showing all fields."

/-- The handler `get_geodata` (lines 127-211), as a pure function of the
environment, the current `geodata_cache` and the requested layer name.
It mirrors the source: allow-list check first (404), then cache lookup,
then load / reproject / serialize / map, cache store, a write of the
payload to a file named after the layer, and the 500 handler for any
pipeline exception. -/
def get_geodata {γ π : Type} (env : Env γ π)
    (geodata_cache : List (String × String)) (layer_name : String) : ReqResult :=
  if layer_name ∉ env.AVAILABLE_LAYERS then
    { response := { body := layerNotFoundBody, status := 404, mimetype := "application/json" },
      cache := geodata_cache, fsReads := [], fsWrites := [], warnings := [], loads := 0 }
  else
    match dictGet geodata_cache layer_name with
    | some payload =>
        { response := { body := payload, status := 200, mimetype := "application/json" },
          cache := geodata_cache, fsReads := [], fsWrites := [], warnings := [], loads := 0 }
    | none =>
        let shapefile_path := SHAPEFILE_FOLDER ++ "/" ++ layer_name ++ ".shp"
        match Env.read_file env shapefile_path with
        | none =>
            { response := { body := couldNotLoadBody layer_name, status := 500,
                            mimetype := "application/json" },
              cache := geodata_cache, fsReads := [shapefile_path], fsWrites := [],
              warnings := [], loads := 1 }
        | some geodata_json =>
            let mapping := dictGet FIELD_MAPPING layer_name
            let processed_json_string := Env.dumps env (applyFieldMapping mapping geodata_json)
            { response := { body := processed_json_string, status := 200,
                            mimetype := "application/json" },
              cache := dictInsert geodata_cache layer_name processed_json_string,
              fsReads := [shapefile_path],
              fsWrites := [layer_name],
              warnings :=
                match mapping with
                | none => [noMappingWarning layer_name]
                | some _ => [],
              loads := 1 }

/-- The files written by the startup loop over `FIELD_MAPPING`
(lines 90-113): one `<key>.txt` placeholder file per registry entry. -/
def startupFieldMappingWrites : List String :=
  FIELD_MAPPING.map (fun p => p.1 ++ ".txt")

/-- The cache-miss load of `get_geodata` as a single step, for the
interleaving model: read/reproject/serialize, apply the field mapping,
dump.  Returns `none` when the pipeline raises. -/
def loadAndProcess {γ π : Type} (env : Env γ π) (layer_name : String) : Option String :=
  match Env.read_file env (SHAPEFILE_FOLDER ++ "/" ++ layer_name ++ ".shp") with
  | none => none
  | some geodata_json =>
      some (Env.dumps env (applyFieldMapping (dictGet FIELD_MAPPING layer_name) geodata_json))

/-- One request thread in the interleaving model: program counter 0 is
about to run the cache check (line 138), 1 has seen a miss and is about to
run the load and the cache store (lines 147-190), 2 is finished. -/
structure ThreadState where
  pc : Nat
  result : Option String

/-- Outcome of one atomic step of a thread: the new cache, the new thread
state, and how many pipeline loads the step performed. -/
structure StepOut where
  cache : List (String × String)
  thread : ThreadState
  loadCount : Nat

/-- One atomic step of a request thread against the shared cache.  The
cache check and the load-and-store are separate steps because the source
performs them without any lock. -/
def stepThread {γ π : Type} (env : Env γ π) (layer_name : String)
    (cache : List (String × String)) (t : ThreadState) : StepOut :=
  match t.pc with
  | 0 =>
      match dictGet cache layer_name with
      | some payload => { cache := cache, thread := { pc := 2, result := some payload }, loadCount := 0 }
      | none => { cache := cache, thread := { pc := 1, result := none }, loadCount := 0 }
  | 1 =>
      match loadAndProcess env layer_name with
      | some body =>
          { cache := dictInsert cache layer_name body,
            thread := { pc := 2, result := some body }, loadCount := 1 }
      | none => { cache := cache, thread := { pc := 2, result := none }, loadCount := 1 }
  | _ => { cache := cache, thread := t, loadCount := 0 }

/-- Shared state of two concurrent requests for the same layer. -/
structure ConcState where
  cache : List (String × String)
  tA : ThreadState
  tB : ThreadState
  loads : Nat

/-- Run a schedule (`false` steps thread A, `true` steps thread B) over the
shared cache. -/
def runSchedule {γ π : Type} (env : Env γ π) (layer_name : String) :
    List Bool → ConcState → ConcState
  | [], s => s
  | b :: rest, s =>
      if b then
        let o := stepThread env layer_name s.cache s.tB
        runSchedule env layer_name rest
          { cache := o.cache, tA := s.tA, tB := o.thread, loads := s.loads + o.loadCount }
      else
        let o := stepThread env layer_name s.cache s.tA
        runSchedule env layer_name rest
          { cache := o.cache, tA := o.thread, tB := s.tB, loads := s.loads + o.loadCount }

/-- Both threads idle at the cache check, empty cache, no loads yet. -/
def concInit : ConcState :=
  { cache := [], tA := { pc := 0, result := none }, tB := { pc := 0, result := none }, loads := 0 }

/-- A one-feature collection used to instantiate the environment in
witnesses. -/
def fcC : FeatureCollection Unit String :=
  { type := "FeatureCollection",
    features := [{ type := "Feature", geometry := (), properties := [("a", "1")] }] }

/-- A concrete environment whose load always succeeds; the available layer
list is the discovery result for a directory holding `L.shp`. -/
def envC : Env Unit String :=
  { AVAILABLE_LAYERS := discover_shapefiles (some ["L.shp"]),
    read_file := fun _ => some fcC,
    dumps := fun _ => "P" }

/-- A concrete environment whose load always fails. -/
def envF : Env Unit String :=
  { AVAILABLE_LAYERS := ["Ohio_County_Boundaries"],
    read_file := fun _ => none,
    dumps := fun _ => "" }

/-- Looking up the key just inserted returns the inserted value. -/
theorem dictGet_insert_self {α : Type} (d : List (String × α)) (k : String) (v : α) :
    dictGet (dictInsert d k v) k = some v := by
  induction d with
  | nil => simp [dictGet, dictInsert]
  | cons p rest ih =>
      obtain ⟨k2, v2⟩ := p
      by_cases h : k2 = k
      · simp [dictInsert, dictGet, h]
      · simp [dictInsert, dictGet, h, ih]

/-- Inserting one key leaves lookups of other keys unchanged. -/
theorem dictGet_insert_ne {α : Type} (d : List (String × α)) (k k2 : String) (v : α)
    (h : k2 ≠ k) : dictGet (dictInsert d k v) k2 = dictGet d k2 := by
  induction d with
  | nil => simp [dictGet, dictInsert, Ne.symm h]
  | cons p rest ih =>
      obtain ⟨k3, v3⟩ := p
      by_cases h3 : k3 = k
      · subst h3
        simp [dictInsert, dictGet, Ne.symm h]
      · simp [dictInsert, dictGet, h3, ih]

/-- A lookup misses exactly when the key is absent from the dictionary. -/
theorem dictGet_eq_none_iff {α : Type} (d : List (String × α)) (k : String) :
    dictGet d k = none ↔ k ∉ d.map Prod.fst := by
  induction d with
  | nil => simp [dictGet]
  | cons p rest ih =>
      obtain ⟨k2, v2⟩ := p
      by_cases h : k2 = k
      · simp [dictGet, h]
      · simp [dictGet, h, ih, Ne.symm h]

/-- Inserting a fresh key appends the pair at the end. -/
theorem dictInsert_append_of_not_mem {α : Type} (d : List (String × α)) (k : String) (v : α)
    (h : k ∉ d.map Prod.fst) : dictInsert d k v = d ++ [(k, v)] := by
  induction d with
  | nil => simp [dictInsert]
  | cons p rest ih =>
      obtain ⟨k2, v2⟩ := p
      simp only [List.map_cons, List.mem_cons] at h
      push_neg at h
      simp [dictInsert, Ne.symm h.1, ih h.2]

/-- The writable display names are among all display names of the policy. -/
theorem policyTargets_sublist (policy : List (String × String)) :
    (policyTargets policy).Sublist (policy.map Prod.snd) := by
  induction policy with
  | nil => simp [policyTargets]
  | cons p rest ih =>
      by_cases h : p.1 = "__title__"
      · simp only [policyTargets, List.filterMap_cons, h, if_pos, List.map_cons]
        exact (ih.trans (List.sublist_cons_self _ _))
      · simp only [policyTargets, List.filterMap_cons, h, if_neg, ite_false, List.map_cons]
        exact ih.cons₂ _

/-- A non-title policy pair contributes its display name to the writable
display names. -/
theorem mem_policyTargets (policy : List (String × String)) (p : String × String)
    (hp : p ∈ policy) (ht : p.1 ≠ "__title__") : p.2 ∈ policyTargets policy := by
  induction policy with
  | nil => cases hp
  | cons q rest ih =>
      rcases List.mem_cons.1 hp with h | h
      · subst h
        simp [policyTargets, List.filterMap_cons, ht]
      · by_cases hq : q.1 = "__title__"
        · simpa [policyTargets, List.filterMap_cons, hq] using ih h
        · simp only [policyTargets, List.filterMap_cons, hq, ite_false]
          exact List.mem_cons_of_mem _ (ih h)

/-- The rename loop appends, in policy order, exactly the renamed values of
the original properties, provided no display name collides with a key
already in the accumulator and the writable display names are distinct. -/
theorem applyPolicy_append {π : Type} (props : List (String × π))
    (policy : List (String × String)) :
    ∀ np : List (String × π),
      (∀ p ∈ policy, p.1 ≠ "__title__" → p.2 ∉ np.map Prod.fst) →
      (policyTargets policy).Nodup →
      applyPolicy props policy np = np ++ renameImage props policy := by
  induction policy with
  | nil =>
      intro np _ _
      simp [applyPolicy, renameImage]
  | cons hd rest ih =>
      intro np h1 h2
      obtain ⟨ok, dk⟩ := hd
      by_cases ht : ok = "__title__"
      · have hrest : applyPolicy props ((ok, dk) :: rest) np = applyPolicy props rest np := by
          simp [applyPolicy, ht]
        have h2r : (policyTargets rest).Nodup := by
          simpa [policyTargets, List.filterMap_cons, ht] using h2
        rw [hrest, ih np (fun p hp => h1 p (List.mem_cons_of_mem _ hp)) h2r]
        simp [renameImage, List.filterMap_cons, ht]
      · have h2c : (dk :: policyTargets rest).Nodup := by
          simpa [policyTargets, List.filterMap_cons, ht] using h2
        have hdknotin : dk ∉ policyTargets rest := (List.nodup_cons.1 h2c).1
        have h2r : (policyTargets rest).Nodup := (List.nodup_cons.1 h2c).2
        cases hok : dictGet props ok with
        | none =>
            have hrest : applyPolicy props ((ok, dk) :: rest) np = applyPolicy props rest np := by
              simp [applyPolicy, ht, hok]
            rw [hrest, ih np (fun p hp => h1 p (List.mem_cons_of_mem _ hp)) h2r]
            simp [renameImage, List.filterMap_cons, ht, hok]
        | some v =>
            have hfresh : dk ∉ np.map Prod.fst := h1 (ok, dk) (List.mem_cons_self _ _) ht
            have hrest : applyPolicy props ((ok, dk) :: rest) np =
                applyPolicy props rest (dictInsert np dk v) := by
              simp [applyPolicy, ht, hok]
            rw [hrest, dictInsert_append_of_not_mem np dk v hfresh]
            have h1r : ∀ p ∈ rest, p.1 ≠ "__title__" →
                p.2 ∉ (np ++ [(dk, v)]).map Prod.fst := by
              intro p hp hpt
              simp only [List.map_append, List.mem_append, List.map_cons, List.map_nil,
                List.mem_singleton, not_or]
              refine ⟨h1 p (List.mem_cons_of_mem _ hp) hpt, ?_⟩
              intro hcontra
              exact hdknotin (hcontra ▸ mem_policyTargets rest p hp hpt)
            rw [ih (np ++ [(dk, v)]) h1r h2r]
            simp [renameImage, List.filterMap_cons, ht, hok]

/-- When the policy has no title designator, `map_feature` runs just the
rename loop from an empty accumulator. -/
theorem map_feature_properties_no_title {γ π : Type} (mapping : List (String × String))
    (f : Feature γ π) (h : dictGet mapping "__title__" = none) :
    (map_feature mapping f).properties = applyPolicy f.properties mapping [] := by
  simp [map_feature, h]

/-- When the policy designates a nonempty (truthy) title field present in
the feature, `map_feature` runs the rename loop from the singleton `Title`
accumulator. -/
theorem map_feature_properties_title {γ π : Type} (mapping : List (String × String))
    (f : Feature γ π) (tf : String) (v : π)
    (h : dictGet mapping "__title__" = some tf)
    (hne : tf ≠ "")
    (hv : dictGet f.properties tf = some v) :
    (map_feature mapping f).properties =
      applyPolicy f.properties mapping [("Title", v)] := by
  simp [map_feature, h, hne, hv, dictInsert]

/-- Totality of the code-point lexicographic order. -/
theorem lexLe_total : ∀ a b : List Char, lexLe a b = true ∨ lexLe b a = true
  | [], _ => Or.inl rfl
  | _ :: _, [] => Or.inr rfl
  | a :: as, b :: bs => by
      by_cases h1 : a.toNat < b.toNat
      · left
        simp [lexLe, h1]
      · by_cases h2 : b.toNat < a.toNat
        · right
          simp [lexLe, h2]
        · rcases lexLe_total as bs with h | h
          · left
            simp [lexLe, h1, h2, h]
          · right
            simp [lexLe, h1, h2, h]

/-- Transitivity of the code-point lexicographic order. -/
theorem lexLe_trans : ∀ a b c : List Char,
    lexLe a b = true → lexLe b c = true → lexLe a c = true
  | [], _, _, _, _ => rfl
  | a :: as, [], c, h1, _ => by simp [lexLe] at h1
  | a :: as, b :: bs, [], _, h2 => by simp [lexLe] at h2
  | a :: as, b :: bs, c :: cs, h1, h2 => by
      by_cases hab : a.toNat < b.toNat
      · by_cases hbc : b.toNat < c.toNat
        · simp [lexLe, Nat.lt_trans hab hbc]
        · by_cases hcb : c.toNat < b.toNat
          · simp [lexLe, hbc, hcb] at h2
          · have hbceq : b.toNat = c.toNat :=
              Nat.le_antisymm (Nat.not_lt.1 hcb) (Nat.not_lt.1 hbc)
            simp [lexLe, hbceq ▸ hab]
      · by_cases hba : b.toNat < a.toNat
        · simp [lexLe, hab, hba] at h1
        · have habeq : a.toNat = b.toNat :=
            Nat.le_antisymm (Nat.not_lt.1 hba) (Nat.not_lt.1 hab)
          have h1r : lexLe as bs = true := by simpa [lexLe, hab, hba] using h1
          by_cases hbc : b.toNat < c.toNat
          · simp [lexLe, habeq ▸ hbc]
          · by_cases hcb : c.toNat < b.toNat
            · simp [lexLe, hbc, hcb] at h2
            · have h2r : lexLe bs cs = true := by simpa [lexLe, hbc, hcb] using h2
              have hac : ¬ a.toNat < c.toNat := by
                rw [habeq]
                exact hbc
              have hca : ¬ c.toNat < a.toNat := by
                rw [habeq]
                exact hcb
              simp [lexLe, hac, hca, lexLe_trans as bs cs h1r h2r]

/-- C1: a request for any layer name outside the startup Discovery
allow-list, including path-traversal-like strings, is answered 404 with the
Layer-not-found JSON body; no filesystem read or write happens and the
cache is untouched. -/
theorem allowlist_rejects_unknown_layer {γ π : Type} (env : Env γ π)
    (cache : List (String × String)) (layer_name : String)
    (h : layer_name ∉ env.AVAILABLE_LAYERS) :
    (get_geodata env cache layer_name).response.status = 404 ∧
    (get_geodata env cache layer_name).response.body = layerNotFoundBody ∧
    (get_geodata env cache layer_name).fsReads = [] ∧
    (get_geodata env cache layer_name).fsWrites = [] ∧
    (get_geodata env cache layer_name).cache = cache := by
  simp [get_geodata, h]

/-- Witness for the allow-list theorem at the path-traversal string. -/
theorem allowlist_rejects_unknown_layer_witness :
    "../secret" ∉ envC.AVAILABLE_LAYERS ∧
    ((get_geodata envC [] "../secret").response.status = 404 ∧
     (get_geodata envC [] "../secret").response.body = layerNotFoundBody ∧
     (get_geodata envC [] "../secret").fsReads = [] ∧
     (get_geodata envC [] "../secret").fsWrites = [] ∧
     (get_geodata envC [] "../secret").cache = []) :=
  ⟨by decide, allowlist_rejects_unknown_layer envC [] "../secret" (by decide)⟩

/-- C2: once a request for a layer has succeeded, the next request for the
same layer returns the byte-identical payload without running the pipeline
(no load, no filesystem read) and without changing the cache; moreover no
request whatsoever removes or rewrites an existing cache entry. -/
theorem cached_payload_stable {γ π : Type} (env : Env γ π)
    (cache : List (String × String)) (layer_name other_name k v : String)
    (h : (get_geodata env cache layer_name).response.status = 200)
    (hk : dictGet cache k = some v) :
    (get_geodata env (get_geodata env cache layer_name).cache layer_name).response.body
      = (get_geodata env cache layer_name).response.body ∧
    (get_geodata env (get_geodata env cache layer_name).cache layer_name).loads = 0 ∧
    (get_geodata env (get_geodata env cache layer_name).cache layer_name).fsReads = [] ∧
    (get_geodata env (get_geodata env cache layer_name).cache layer_name).cache
      = (get_geodata env cache layer_name).cache ∧
    dictGet (get_geodata env cache other_name).cache k = some v := by
  have h5 : ∀ nm : String, dictGet (get_geodata env cache nm).cache k = some v := by
    intro nm
    by_cases hm : nm ∈ env.AVAILABLE_LAYERS
    · cases hc : dictGet cache nm with
      | some p => simp [get_geodata, hm, hc, hk]
      | none =>
          cases hr : Env.read_file env (SHAPEFILE_FOLDER ++ "/" ++ nm ++ ".shp") with
          | none => simp [get_geodata, hm, hc, hr, hk]
          | some fc =>
              have hkne : k ≠ nm := by
                intro he
                rw [he, hc] at hk
                cases hk
              simp [get_geodata, hm, hc, hr, dictGet_insert_ne _ _ _ _ hkne, hk]
    · simp [get_geodata, hm, hk]
  by_cases hmem : layer_name ∈ env.AVAILABLE_LAYERS
  · cases hcache : dictGet cache layer_name with
    | some payload =>
        refine ⟨?_, ?_, ?_, ?_, h5 other_name⟩ <;>
          simp [get_geodata, hmem, hcache]
    | none =>
        cases hread : Env.read_file env (SHAPEFILE_FOLDER ++ "/" ++ layer_name ++ ".shp") with
        | none => simp [get_geodata, hmem, hcache, hread] at h
        | some fc =>
            refine ⟨?_, ?_, ?_, ?_, h5 other_name⟩ <;>
              simp [get_geodata, hmem, hcache, hread, dictGet_insert_self]
  · simp [get_geodata, hmem] at h

/-- Witness for the cache-stability theorem on a concrete successful load. -/
theorem cached_payload_stable_witness :
    (get_geodata envC [("K", "V")] "L").response.status = 200 ∧
    dictGet [("K", "V")] "K" = some "V" ∧
    ((get_geodata envC (get_geodata envC [("K", "V")] "L").cache "L").response.body
       = (get_geodata envC [("K", "V")] "L").response.body ∧
     (get_geodata envC (get_geodata envC [("K", "V")] "L").cache "L").loads = 0 ∧
     (get_geodata envC (get_geodata envC [("K", "V")] "L").cache "L").fsReads = [] ∧
     (get_geodata envC (get_geodata envC [("K", "V")] "L").cache "L").cache
       = (get_geodata envC [("K", "V")] "L").cache ∧
     dictGet (get_geodata envC [("K", "V")] "M").cache "K" = some "V") :=
  ⟨by decide, by decide,
    cached_payload_stable envC [("K", "V")] "L" "M" "K" "V" (by decide) (by decide)⟩

/-- C3: contrary to the no-write claim, the code does write to the
filesystem: the startup loop over the field-mapping registry writes one
placeholder text file per entry, and a successful cache-miss load writes
the processed payload to a file named after the layer. -/
theorem filesystem_writes_do_occur :
    startupFieldMappingWrites =
      ["Ohio_County_Boundaries.txt", "Ohio_Senate_Districts_2024_to_2032.txt",
       "Ohio_House_Districts_2024_to__2032.txt", "Ohio_Municipal_Boundaries.txt",
       "Ohio_Township_Boundaries.txt"] ∧
    (get_geodata envC [] "L").fsWrites = ["L"] :=
  ⟨by decide, by decide⟩

/-- C4: for a policy with no title designator and distinct display names,
the mapped properties are exactly the policy-named original attributes
copied under their display names, in policy order; every original attribute
not named in the policy is dropped. -/
theorem mapping_drops_and_renames {γ π : Type} (mapping : List (String × String))
    (f : Feature γ π)
    (hnt : dictGet mapping "__title__" = none)
    (hsnd : (mapping.map Prod.snd).Nodup) :
    (map_feature mapping f).properties =
      mapping.filterMap (fun p => (dictGet f.properties p.1).map (fun v => (p.2, v))) := by
  rw [map_feature_properties_no_title mapping f hnt]
  rw [applyPolicy_append f.properties mapping [] (by simp)
    (List.Nodup.sublist (policyTargets_sublist mapping) hsnd)]
  rw [List.nil_append]
  unfold renameImage
  apply List.filterMap_congr
  intro p hp
  have hpt : p.1 ≠ "__title__" := by
    have habs := (dictGet_eq_none_iff mapping "__title__").1 hnt
    intro he
    exact habs (he ▸ List.mem_map_of_mem Prod.fst hp)
  simp [hpt]

/-- Witness for the mapping theorem at the Senate-district example. -/
theorem mapping_drops_and_renames_witness :
    dictGet [("district", "Senate District #")] "__title__" = none ∧
    (([("district", "Senate District #")] : List (String × String)).map Prod.snd).Nodup ∧
    (map_feature [("district", "Senate District #")]
      ({ type := "Feature", geometry := (),
         properties := [("district", "12"), ("other", "ignored")] } : Feature Unit String)).properties
      = [("Senate District #", "12")] :=
  ⟨by decide, by decide,
    (mapping_drops_and_renames [("district", "Senate District #")]
      { type := "Feature", geometry := (),
        properties := [("district", "12"), ("other", "ignored")] }
      (by decide) (by decide)).trans (by decide)⟩

/-- C5 counterexample: a policy whose title designator is the empty string
designates a field that can be present in the attributes (the empty key),
yet the program injects no Title entry, because the guard on line 173 is
Python truthiness and the empty string is falsy. -/
theorem title_empty_designator_no_injection :
    dictGet [("__title__", "")] "__title__" = some "" ∧
    dictGet [("", "v")] "" = some "v" ∧
    dictGet (map_feature [("__title__", "")]
      ({ type := "Feature", geometry := (),
         properties := [("", "v")] } : Feature Unit String)).properties "Title" = none ∧
    (map_feature [("__title__", "")]
      ({ type := "Feature", geometry := (),
         properties := [("", "v")] } : Feature Unit String)).properties = [] := by
  refine ⟨by decide, by decide, by decide, by decide⟩

/-- C5 amended: when the policy designates a nonempty (truthy) title field
that the feature carries, the synthetic Title entry is the first property
and the remaining properties are the rename-loop image with the
title-designator entry itself excluded; an empty-string designator is
falsy in the source and injects nothing. -/
theorem title_injected_first {γ π : Type} (mapping : List (String × String))
    (f : Feature γ π) (tf : String) (v : π)
    (h : dictGet mapping "__title__" = some tf)
    (hne : tf ≠ "")
    (hv : dictGet f.properties tf = some v)
    (hT : "Title" ∉ mapping.map Prod.snd)
    (hsnd : (mapping.map Prod.snd).Nodup) :
    (map_feature mapping f).properties = ("Title", v) :: renameImage f.properties mapping := by
  rw [map_feature_properties_title mapping f tf v h hne hv]
  rw [applyPolicy_append f.properties mapping [("Title", v)] ?hfresh
    (List.Nodup.sublist (policyTargets_sublist mapping) hsnd)]
  · rw [List.singleton_append]
  case hfresh =>
    intro p hp hpt
    simp only [List.map_cons, List.map_nil, List.mem_singleton]
    intro he
    exact hT (he ▸ List.mem_map_of_mem Prod.snd hp)

/-- Witness for the title-injection theorem at the County-Name example. -/
theorem title_injected_first_witness :
    dictGet [("__title__", "name"), ("name", "County Name")] "__title__" = some "name" ∧
    ("name" : String) ≠ "" ∧
    dictGet [("name", "Franklin")] "name" = some "Franklin" ∧
    "Title" ∉ ([("__title__", "name"), ("name", "County Name")] : List (String × String)).map Prod.snd ∧
    (([("__title__", "name"), ("name", "County Name")] : List (String × String)).map Prod.snd).Nodup ∧
    (map_feature [("__title__", "name"), ("name", "County Name")]
      ({ type := "Feature", geometry := (),
         properties := [("name", "Franklin")] } : Feature Unit String)).properties
      = [("Title", "Franklin"), ("County Name", "Franklin")] :=
  ⟨by decide, by decide, by decide, by decide, by decide,
    (title_injected_first [("__title__", "name"), ("name", "County Name")]
      { type := "Feature", geometry := (), properties := [("name", "Franklin")] }
      "name" "Franklin" (by decide) (by decide) (by decide) (by decide) (by decide)).trans
      (by decide)⟩

/-- C6: a request whose load fails is answered 500 with the
could-not-load JSON body, the cache is left unchanged (no partial entry),
and a subsequent identical request runs the pipeline again. -/
theorem load_failure_500_no_cache {γ π : Type} (env : Env γ π)
    (cache : List (String × String)) (layer_name : String)
    (h1 : layer_name ∈ env.AVAILABLE_LAYERS)
    (h2 : dictGet cache layer_name = none)
    (h3 : Env.read_file env (SHAPEFILE_FOLDER ++ "/" ++ layer_name ++ ".shp") = none) :
    (get_geodata env cache layer_name).response.status = 500 ∧
    (get_geodata env cache layer_name).response.body = couldNotLoadBody layer_name ∧
    (get_geodata env cache layer_name).cache = cache ∧
    (get_geodata env (get_geodata env cache layer_name).cache layer_name).loads = 1 := by
  simp [get_geodata, h1, h2, h3]

/-- Witness for the failure theorem on an environment whose load raises. -/
theorem load_failure_500_no_cache_witness :
    "Ohio_County_Boundaries" ∈ envF.AVAILABLE_LAYERS ∧
    dictGet [] "Ohio_County_Boundaries" = (none : Option String) ∧
    Env.read_file envF (SHAPEFILE_FOLDER ++ "/" ++ "Ohio_County_Boundaries" ++ ".shp") = none ∧
    ((get_geodata envF [] "Ohio_County_Boundaries").response.status = 500 ∧
     (get_geodata envF [] "Ohio_County_Boundaries").response.body
       = couldNotLoadBody "Ohio_County_Boundaries" ∧
     (get_geodata envF [] "Ohio_County_Boundaries").cache = [] ∧
     (get_geodata envF (get_geodata envF [] "Ohio_County_Boundaries").cache
        "Ohio_County_Boundaries").loads = 1) :=
  ⟨by decide, by decide, by decide,
    load_failure_500_no_cache envF [] "Ohio_County_Boundaries"
      (by decide) (by decide) (by decide)⟩

/-- C7: a discovered layer with no field-mapping entry loads successfully,
serves the feature collection exactly as read (all original attributes
unmodified), and emits the warning-level message. -/
theorem unmapped_layer_passthrough {γ π : Type} (env : Env γ π)
    (cache : List (String × String)) (layer_name : String) (fc : FeatureCollection γ π)
    (h1 : layer_name ∈ env.AVAILABLE_LAYERS)
    (h2 : dictGet cache layer_name = none)
    (h3 : dictGet FIELD_MAPPING layer_name = none)
    (h4 : Env.read_file env (SHAPEFILE_FOLDER ++ "/" ++ layer_name ++ ".shp") = some fc) :
    (get_geodata env cache layer_name).response.status = 200 ∧
    (get_geodata env cache layer_name).response.body = Env.dumps env fc ∧
    (get_geodata env cache layer_name).warnings = [noMappingWarning layer_name] := by
  simp [get_geodata, h1, h2, h3, h4, applyFieldMapping]

/-- Witness for the pass-through theorem on the unmapped layer `L`. -/
theorem unmapped_layer_passthrough_witness :
    "L" ∈ envC.AVAILABLE_LAYERS ∧
    dictGet [] "L" = (none : Option String) ∧
    dictGet FIELD_MAPPING "L" = none ∧
    Env.read_file envC (SHAPEFILE_FOLDER ++ "/" ++ "L" ++ ".shp") = some fcC ∧
    ((get_geodata envC [] "L").response.status = 200 ∧
     (get_geodata envC [] "L").response.body = Env.dumps envC fcC ∧
     (get_geodata envC [] "L").warnings = [noMappingWarning "L"]) :=
  ⟨by decide, by decide, by decide, by decide,
    unmapped_layer_passthrough envC [] "L" fcC (by decide) (by decide) (by decide) (by decide)⟩

/-- C8 counterexample: the two distinct directory entries `.shp` and
`.shp.shp` both strip to the layer identifier `.shp` under the splitext
rule, so the discovery result contains a duplicate. -/
theorem discovery_not_duplicate_free :
    ¬ (discover_shapefiles (some [".shp", ".shp.shp"])).Nodup := by decide

/-- C8 amended: for any fixed listing, discovery returns the
lexicographically sorted rearrangement of exactly the `.shp` entries with
the extension stripped; the result is a pure function of the listing
(hence identical across repeated calls) but it is not deduplicated. -/
theorem discovery_sorted_of_listing (filenames : List String) :
    List.Sorted strLe (discover_shapefiles (some filenames)) ∧
    (discover_shapefiles (some filenames)).Perm
      ((filenames.filter (fun f => endsWithShp f)).map splitextRoot) := by
  haveI : IsTotal String strLe := ⟨fun a b => lexLe_total a.data b.data⟩
  haveI : IsTrans String strLe := ⟨fun a b c => lexLe_trans a.data b.data c.data⟩
  constructor
  · exact List.sorted_insertionSort strLe _
  · exact List.perm_insertionSort strLe _

/-- C9 counterexample: under the check/check/load/load interleaving of two
simultaneous first requests for the same layer, the pipeline runs twice,
refuting at-most-one concurrent load. -/
theorem concurrent_first_requests_two_loads :
    ¬ ((runSchedule envC "L" [false, true, false, true] concInit).loads ≤ 1) := by
  decide

/-- C9 amended: with the unsynchronized cache, two interleaved first
requests for the same layer may each run the pipeline (two loads); both
callers nevertheless receive the identical payload of the deterministic
pipeline, and neither blocks the other (the model has no waiting step). -/
theorem concurrent_first_requests_amended {γ π : Type} (env : Env γ π)
    (layer_name body : String)
    (h : loadAndProcess env layer_name = some body) :
    (runSchedule env layer_name [false, true, false, true] concInit).loads = 2 ∧
    (runSchedule env layer_name [false, true, false, true] concInit).tA.result = some body ∧
    (runSchedule env layer_name [false, true, false, true] concInit).tB.result = some body := by
  simp [runSchedule, stepThread, concInit, dictGet, h]

/-- Witness for the amended concurrency theorem on a successful pipeline. -/
theorem concurrent_first_requests_amended_witness :
    loadAndProcess envC "L" = some "P" ∧
    ((runSchedule envC "L" [false, true, false, true] concInit).loads = 2 ∧
     (runSchedule envC "L" [false, true, false, true] concInit).tA.result = some "P" ∧
     (runSchedule envC "L" [false, true, false, true] concInit).tB.result = some "P") :=
  ⟨by decide, concurrent_first_requests_amended envC "L" "P" (by decide)⟩

/-- C10: the field-mapping step rewrites only the properties of each
feature: the collection type, the number and order of features, and every
feature's geometry and type tag are unchanged. -/
theorem mapping_touches_only_properties {γ π : Type}
    (mapping : Option (List (String × String))) (fc : FeatureCollection γ π) :
    (applyFieldMapping mapping fc).type = fc.type ∧
    (applyFieldMapping mapping fc).features.length = fc.features.length ∧
    (applyFieldMapping mapping fc).features.map Feature.geometry
      = fc.features.map Feature.geometry ∧
    (applyFieldMapping mapping fc).features.map Feature.type
      = fc.features.map Feature.type := by
  cases mapping with
  | none => simp [applyFieldMapping]
  | some m =>
      refine ⟨rfl, by simp [applyFieldMapping], ?_, ?_⟩ <;>
        · show (fc.features.map (map_feature m)).map _ = _
          induction fc.features with
          | nil => rfl
          | cons a l ih => simp_all [map_feature]
